import Mathlib

/-!
Verification of the WSF cache/refresh layer of ferry.fyi (the
`server/lib/wsf` module given as `src/unnamed/part_000`, lines 461-1085),
shallowly embedded in Lean 4.

Conventions of the embedding:
* JavaScript numbers holding epoch timestamps, counts and ids are
  modelled as `Int`; upstream WSF date strings are modelled by the epoch
  seconds that `wsfDateToTimestamp` produces for them (that helper lives
  outside the given sources; timestamps are epoch seconds per the spec).
* JavaScript objects used as dictionaries are modelled as association
  lists.  JS coerces every object key to a string, so the per-route
  schedule map (`_.keyBy(schedule, time)`) stores the key
  `toString time`; lookups through lodash `_.get` / `_.setWith` apply
  the same coercion (`toKey`), while `_.indexOf` compares with
  SameValueZero and performs no coercion.  The `JsPrim` type below
  makes that distinction explicit.
* `null` and `undefined` are both modelled as `Option.none`; a thrown
  `TypeError` is modelled with `Except.error`.
* Mutation of the module-level maps is modelled by explicit state
  passing over `CacheState`.
-/

namespace FerryFyi

deriving instance DecidableEq for Except

/-- JavaScript primitive values as they occur in the cache maps: object
keys are strings, departure times are numbers. -/
inductive JsPrim where
  | str : String → JsPrim
  | num : Int → JsPrim
deriving DecidableEq, Repr

/-- SameValueZero, the equality used by lodash `_.indexOf`: values of
different JS primitive types are never equal. -/
def sameValueZero : JsPrim → JsPrim → Bool
  | .str a, .str b => a == b
  | .num a, .num b => a == b
  | _, _ => false

/-- JS property-key coercion (lodash `toKey`): a numeric key is
converted to its decimal string, as `_.get`, `_.setWith` and `_.keyBy`
do before indexing an object. -/
def jsToKey (t : Int) : String := toString t

def jsIndexOfAux (v : JsPrim) : List JsPrim → Int → Int
  | [], _ => -1
  | x :: xs, i => if sameValueZero x v then i else jsIndexOfAux v xs (i + 1)

/-- lodash `_.indexOf`: index of the first element SameValueZero-equal
to the probe, `-1` when there is none. -/
def jsIndexOf (xs : List JsPrim) (v : JsPrim) : Int := jsIndexOfAux v xs 0

/-- JS array indexing: a negative or out-of-range index yields
undefined. -/
def jsArrayGet (xs : List String) (i : Int) : Option String :=
  if i < 0 then none else xs.get? i.toNat

/-- JS relational comparison of strings: lexicographic on the code
units. -/
def charListLt : List Char → List Char → Bool
  | [], [] => false
  | [], _ :: _ => true
  | _ :: _, [] => false
  | a :: as, b :: bs => if a < b then true else if b < a then false else charListLt as bs

def jsStrLt (a b : String) : Bool := charListLt a.data b.data

def jsStrLe (a b : String) : Bool := !jsStrLt b a

def insertSorted (x : String) : List String → List String
  | [] => [x]
  | y :: ys => if jsStrLt x y then x :: y :: ys else y :: insertSorted x ys

/-- lodash `_.sortBy` with the identity iteratee over string keys:
stable ascending lexicographic sort. -/
def sortStrings : List String → List String
  | [] => []
  | x :: xs => insertSorted x (sortStrings xs)

/-- Object property read by integer id (the id is coerced to a string
key on both sides, so an `Int`-keyed association list is faithful). -/
def jsLookup {α : Type} (m : List (Int × α)) (k : Int) : Option α :=
  (m.find? (fun p => p.1 == k)).map (·.2)

/-- Object property read by string key. -/
def jsLookupStr {α : Type} (m : List (String × α)) (k : String) : Option α :=
  (m.find? (fun p => p.1 == k)).map (·.2)

/-- Read of a two-level map (`map[a][b]`), both levels keyed by ids. -/
def jsLookupPair {α : Type} (m : List ((Int × Int) × α)) (a b : Int) : Option α :=
  (m.find? (fun p => p.1 == (a, b))).map (·.2)

/-- Object property write: replace the value at the key if present,
otherwise append the new key (JS keeps insertion order). -/
def jsSetStr {α : Type} : List (String × α) → String → α → List (String × α)
  | [], k, v => [(k, v)]
  | p :: ps, k, v => if p.1 == k then (k, v) :: ps else p :: jsSetStr ps k v

def jsSetInt {α : Type} : List (Int × α) → Int → α → List (Int × α)
  | [], k, v => [(k, v)]
  | p :: ps, k, v => if p.1 == k then (k, v) :: ps else p :: jsSetInt ps k v

def jsSetPair {α : Type} : List ((Int × Int) × α) → (Int × Int) → α → List ((Int × Int) × α)
  | [], k, v => [(k, v)]
  | p :: ps, k, v => if p.1 == k then (k, v) :: ps else p :: jsSetPair ps k v

/-- The `info` sub-object of a vessel.  `updateVessels` replaces it
wholesale with `{ada}`; `recordTiming` spreads the old object and sets
`crossing`. -/
structure VesselInfo where
  ada : Option String := none
  crossing : Option String := none
deriving DecidableEq, Repr

structure GeoLocation where
  latitude : Int := 0
  longitude : Int := 0
deriving DecidableEq, Repr

/-- A vessel cache entry (`vesselsById[id]`).  `initVessel` creates the
entry as an empty object; the record defaults stand for the fields a
fresh entry does not yet have. -/
structure Vessel where
  id : Int := 0
  abbreviation : String := ""
  beam : String := ""
  classId : Int := 0
  hasCarDeckRestroom : Bool := false
  hasElevator : Bool := false
  hasGalley : Bool := false
  hasRestroom : Bool := false
  hasWiFi : Bool := false
  horsepower : Int := 0
  inMaintenance : Bool := false
  inService : Bool := false
  info : VesselInfo := {}
  isAdaAccessible : Bool := false
  length : String := ""
  maxClearance : Int := 0
  name : String := ""
  passengerCapacity : Int := 0
  speed : Int := 0
  tallVehicleCapacity : Int := 0
  vehicleCapacity : Int := 0
  weight : Int := 0
  yearBuilt : Int := 0
  yearRebuilt : Option Int := none
  arrivingTerminalId : Option Int := none
  departingTerminalId : Option Int := none
  departedTime : Option Int := none
  departureDelta : Option Int := none
  dockedTime : Option Int := none
  estimatedArrivalTime : Option Int := none
  heading : Int := 0
  isAtDock : Bool := false
  location : GeoLocation := {}
  mmsi : Int := 0
deriving DecidableEq, Repr

/-- A capacity record, both the in-memory `Crossing.build(model)` value
and the persisted row (one row per key, per the spec of the store). -/
structure Capacity where
  arrivalId : Int := 0
  departureId : Int := 0
  departureDelta : Option Int := none
  departureTime : Int := 0
  driveUpCapacity : Int := 0
  hasDriveUp : Bool := false
  hasReservations : Bool := false
  isCancelled : Bool := false
  reservableCapacity : Int := 0
  totalCapacity : Int := 0
deriving DecidableEq, Repr

/-- The `estimate` attached to a crossing:
`_.pick(previousCapacity, [driveUpCapacity, reservableCapacity])`. -/
structure Estimate where
  driveUpCapacity : Int := 0
  reservableCapacity : Int := 0
deriving DecidableEq, Repr

/-- One scheduled sailing as built by `updateSchedule`; `capacity` and
`estimate` are attached later by the short-cycle refresher. -/
structure SailingEntry where
  allowsPassengers : Bool := false
  allowsVehicles : Bool := false
  hasPassed : Bool := false
  time : Int := 0
  vessel : Option Vessel := none
  capacity : Option Capacity := none
  estimate : Option Estimate := none
deriving DecidableEq, Repr

structure Bulletin where
  title : String := ""
  description : String := ""
  date : Int := 0
deriving DecidableEq, Repr

structure WaitTime where
  title : String := ""
  description : String := ""
  time : Int := 0
deriving DecidableEq, Repr

structure StreetAddress where
  line1 : String := ""
  line2 : String := ""
  city : String := ""
  state : String := ""
  zip : String := ""
deriving DecidableEq, Repr

structure TerminalLocation where
  link : Option String := none
  latitude : Int := 0
  longitude : Int := 0
  address : StreetAddress := {}
deriving DecidableEq, Repr

structure TerminalInfo where
  ada : String := ""
  airport : String := ""
  bicycle : String := ""
  construction : String := ""
  food : String := ""
  lost : String := ""
  motorcycle : String := ""
  parking : String := ""
  security : String := ""
  train : String := ""
  truck : String := ""
deriving DecidableEq, Repr

/-- The route descriptor attached to a mate in `updateTerminals`
(`mate.route = {id, abbreviation, description, crossingTime}`). -/
structure Route where
  id : Int := 0
  abbreviation : String := ""
  description : String := ""
  crossingTime : Int := 0
deriving DecidableEq, Repr

/-- The scalar fields of a terminal cache entry, without `mates`
(`_.omit(terminalsById[mateId], mates)` yields exactly this part). -/
structure TerminalBase where
  id : Int := 0
  abbreviation : String := ""
  bulletins : List Bulletin := []
  cameras : List Int := []
  hasElevator : Bool := false
  hasOverheadLoading : Bool := false
  hasRestroom : Bool := false
  hasWaitingRoom : Bool := false
  hasFood : Bool := false
  info : TerminalInfo := {}
  location : TerminalLocation := {}
  name : String := ""
  waitTimes : List WaitTime := []
deriving DecidableEq, Repr

/-- A mate reference: a deep copy of the mate terminal without its own
`mates`, plus the fetched route descriptor. -/
structure Mate where
  base : TerminalBase := {}
  route : Route := {}
deriving DecidableEq, Repr

structure Terminal where
  base : TerminalBase := {}
  mates : List Mate := []
deriving DecidableEq, Repr

/-- The per-family `cacheFlushDates` record; each starts as `null`. -/
structure FlushDates where
  schedule : Option Int := none
  vessels : Option Int := none
  terminals : Option Int := none
deriving DecidableEq, Repr

/-- The module-level mutable state: the in-memory cache maps plus the
persisted capacity table (`crossings`, the only durable entity; its
upsert/range interface is modelled from the spec since the sequelize
model is outside the given sources). -/
structure CacheState where
  cacheFlushDates : FlushDates := {}
  matesByTerminalId : List (Int × List Int) := []
  vesselsById : List (Int × Vessel) := []
  previousCapacityByTerminal : List ((Int × Int) × List (Int × Capacity)) := []
  terminalsById : List (Int × Terminal) := []
  scheduleByTerminal : List ((Int × Int) × List (String × SailingEntry)) := []
  crossings : List Capacity := []
deriving DecidableEq, Repr

/-- Source `isEmpty(capacity)`: the sailing still has all of its space
(`driveUpCapacity + reservableCapacity === totalCapacity`). -/
def isEmpty (capacity : Capacity) : Bool :=
  capacity.driveUpCapacity + capacity.reservableCapacity == capacity.totalCapacity

/-- Source `isFull(capacity)`:
`driveUpCapacity === 0 && reservableCapacity === 0`. -/
def isFull (capacity : Capacity) : Bool :=
  capacity.driveUpCapacity == 0 && capacity.reservableCapacity == 0

/-- Source `hasPassed(capacity)` (the capacity-based recheck): the
departure time, shifted by `departureDelta` when that field is truthy
(present and nonzero), is before the wall clock `now`.  The source
returns undefined for a missing capacity; every caller first checks the
capacity is non-null, so the model takes a `Capacity`. -/
def hasPassed (now : Int) (capacity : Capacity) : Bool :=
  let estimatedTime :=
    match capacity.departureDelta with
    | some d => if d != 0 then capacity.departureTime + d else capacity.departureTime
    | none => capacity.departureTime
  estimatedTime < now

/-- Body of source `getVessel`: look the vessel up in `vesselsById`;
with `resetDelay` return `_.merge(_.cloneDeep(vessel), {departureDelta:
null})` - a copy with the delta cleared (lodash merge does assign a
null source value).  For a missing vessel with `resetDelay`,
`Object(undefined)` makes merge return a bare object holding only the
null delta, modelled as the default record with the delta cleared. -/
def getVesselValue (vesselsById : List (Int × Vessel)) (id : Int) (resetDelay : Bool) :
    Option Vessel :=
  let vessel := jsLookup vesselsById id
  if resetDelay then
    some { (vessel.getD {}) with departureDelta := none }
  else
    vessel

/-- Source `getVessel` accessor.  The `await updateProgress.vesels`
line awaits a property that does not exist (see the C9 development
below), so it never waits; the read itself does not mutate the cache,
which the returned state records. -/
def getVessel (st : CacheState) (id : Int) (resetDelay : Bool) : Option Vessel × CacheState :=
  (getVesselValue st.vesselsById id resetDelay, st)

/-- One sailing object built inside `updateSchedule`
(`_.map(scheduleData.Times, ...)`): eligibility from the loading rule
via `_.includes([1,3], rule)` and `_.includes([2,3], rule)`, and the
schedule-build `hasPassed` (plain wall-clock comparison, no delta). -/
def buildSailing (now time loadingRule : Int) (vessel : Option Vessel) : SailingEntry :=
  { allowsPassengers := ([1, 3] : List Int).contains loadingRule
    allowsVehicles := ([2, 3] : List Int).contains loadingRule
    hasPassed := decide (time < now)
    time := time
    vessel := vessel }

/-- One record of the live vessel-locations feed, with upstream date
fields already put through `wsfDateToTimestamp` (null and epoch zero
are both falsy in the source tests, hence `Option Int`). -/
structure VesselLocation where
  VesselID : Int := 0
  ArrivingTerminalID : Option Int := none
  DepartingTerminalID : Option Int := none
  LeftDock : Option Int := none
  ScheduledDeparture : Option Int := none
  Eta : Option Int := none
  EtaBasis : String := ""
  AtDock : Bool := false
  Heading : Int := 0
  Latitude : Int := 0
  Longitude : Int := 0
  Mmsi : Int := 0
  Speed : Int := 0
deriving DecidableEq, Repr

/-- JS truthiness of an optional timestamp: null, undefined and 0 are
falsy. -/
def jsTruthyTime : Option Int → Bool
  | some t => t != 0
  | none => false

/-- One vessel iteration of source `recordTiming`: compute the sticky
`departureDelta`, the edge-triggered `dockedTime` local (null unless
the at-dock flag transitions false to true this poll), then
`assignVessel` the whole data object - including the possibly-null
`dockedTime` - over the previous entry. -/
def recordTimingStep (now : Int) (previousVessel : Vessel) (vessel : VesselLocation) : Vessel :=
  let departedTime := vessel.LeftDock
  let departureTime := vessel.ScheduledDeparture
  let departureDelta : Option Int :=
    if jsTruthyTime departureTime && jsTruthyTime departedTime then
      some (departedTime.getD 0 - departureTime.getD 0)
    else
      previousVessel.departureDelta
  let isAtDock := vessel.AtDock
  let dockedTime : Option Int :=
    if isAtDock && !previousVessel.isAtDock then some now else none
  { previousVessel with
    arrivingTerminalId := vessel.ArrivingTerminalID
    departingTerminalId := vessel.DepartingTerminalID
    departedTime := departedTime
    departureDelta := departureDelta
    dockedTime := dockedTime
    estimatedArrivalTime := vessel.Eta
    heading := vessel.Heading
    id := vessel.VesselID
    isAtDock := vessel.AtDock
    location := { latitude := vessel.Latitude, longitude := vessel.Longitude }
    mmsi := vessel.Mmsi
    speed := vessel.Speed
    info := { previousVessel.info with crossing := some vessel.EtaBasis } }

/-- The per-route schedule object
`_.get(scheduleByTerminal, [departureId, arrivalId])`; an absent route
behaves like an object without keys. -/
def jsRouteSchedule (st : CacheState) (departureId arrivalId : Int) :
    List (String × SailingEntry) :=
  (jsLookupPair st.scheduleByTerminal departureId arrivalId).getD []

/-- The crossing read
`_.get(scheduleByTerminal, [departureId, arrivalId, departureTime])`
(the numeric time is coerced to a string key by `_.get`). -/
def jsGetEntry (st : CacheState) (departureId arrivalId : Int) (key : String) :
    Option SailingEntry :=
  (jsLookupPair st.scheduleByTerminal departureId arrivalId).bind (fun s => jsLookupStr s key)

/-- The index part of source `getPreviousCapacity`: sort the string
keys of the route schedule, find `departureTime` with `_.indexOf`, and
return the key one position earlier.  `_.keys` yields strings while
`departureTime` is a number, and `_.indexOf` compares with
SameValueZero, so the found index is always `-1`; the source then reads
the array at `-2`, which is undefined. -/
def previousDepartureKey (schedule : List (String × SailingEntry)) (departureTime : Int) :
    Option String :=
  let departureTimes := sortStrings (schedule.map (·.1))
  let departureIndex := jsIndexOf (departureTimes.map JsPrim.str) (JsPrim.num departureTime)
  if departureIndex = 0 then none
  else jsArrayGet departureTimes (departureIndex - 1)

/-- Source `getPreviousCapacity`: the capacity attached to the sailing
immediately before `departureTime` on the route, null when the given
time is the first key - and, because of the string-versus-number
`_.indexOf` probe described at `previousDepartureKey`, null always. -/
def getPreviousCapacity (st : CacheState) (departureId arrivalId departureTime : Int) :
    Option Capacity :=
  let schedule := jsRouteSchedule st departureId arrivalId
  match previousDepartureKey schedule departureTime with
  | none => none
  | some previousTime =>
    match jsLookupStr schedule previousTime with
    | none => none
    | some entry => entry.capacity

/-- Modelled from the spec: source `saveCapacity` runs
`Crossing.findOne` by `(arrivalId, departureId, departureTime)` then
`update` or `create`; the sequelize model itself is outside the given
sources, and the spec states the table keeps at most one row per key
with upsert-by-key writes. -/
def saveCapacityRow : List Capacity → Capacity → List Capacity
  | [], c => [c]
  | r :: rs, c =>
    if r.arrivalId == c.arrivalId && r.departureId == c.departureId &&
        r.departureTime == c.departureTime then
      c :: rs
    else
      r :: saveCapacityRow rs c

/-- Overwrite the `capacity` field of the crossing stored at `key` on
the given route (the JS effect of assigning through the object
reference obtained from the schedule map). -/
def setSchedEntryCapacity (st : CacheState) (departureId arrivalId : Int) (key : String)
    (cap : Option Capacity) : CacheState :=
  { st with scheduleByTerminal := st.scheduleByTerminal.map (fun p =>
      if p.1 == (departureId, arrivalId) then
        (p.1, p.2.map (fun q => if q.1 == key then (q.1, { q.2 with capacity := cap }) else q))
      else p) }

/-- One space record of the terminal-sailing-space feed. -/
structure SpaceData where
  TerminalID : Int := 0
  DriveUpSpaceCount : Int := 0
  DisplayDriveUpSpace : Bool := false
  ReservableSpaceCount : Int := 0
  DisplayReservableSpace : Bool := false
  MaxSpaceCount : Int := 0
deriving DecidableEq, Repr

/-- One departure of the terminal-sailing-space feed. -/
structure DepartingSpace where
  VesselID : Int := 0
  Departure : Int := 0
  IsCancelled : Bool := false
  SpaceForArrivalTerminals : List SpaceData := []
deriving DecidableEq, Repr

structure CapacityStepResult where
  state : CacheState
  superseded : Bool
deriving DecidableEq, Repr

/-- The innermost callback of source `recordCapacity`
(one `spaceData` of one departure of one terminal): build the capacity
model, attach it to the matching crossing (a missing crossing makes the
`crossing.capacity = capacity` assignment throw a TypeError), persist
it, then attempt the supersession correction against
`getPreviousCapacity`.  `superseded` records whether the correction
branch ran. -/
def processSpaceData (now : Int) (terminalID : Int) (departure : DepartingSpace)
    (spaceData : SpaceData) (st : CacheState) : Except String CapacityStepResult :=
  let vessel := jsLookup st.vesselsById departure.VesselID
  let departureTime := departure.Departure
  let arrivalId := spaceData.TerminalID
  let departureId := terminalID
  let capacity : Capacity :=
    { arrivalId := arrivalId
      departureId := departureId
      departureDelta := vessel.bind (·.departureDelta)
      departureTime := departureTime
      driveUpCapacity := spaceData.DriveUpSpaceCount
      hasDriveUp := spaceData.DisplayDriveUpSpace
      hasReservations := spaceData.DisplayReservableSpace
      isCancelled := departure.IsCancelled
      reservableCapacity := spaceData.ReservableSpaceCount
      totalCapacity := spaceData.MaxSpaceCount }
  match jsGetEntry st departureId arrivalId (jsToKey departureTime) with
  | none => .error "TypeError: cannot set property capacity of undefined"
  | some _ =>
    let st1 := setSchedEntryCapacity st departureId arrivalId (jsToKey departureTime)
      (some capacity)
    let st2 := { st1 with crossings := saveCapacityRow st1.crossings capacity }
    match getPreviousCapacity st2 departureId arrivalId departureTime with
    | none => .ok ⟨st2, false⟩
    | some previousCapacity =>
      if !hasPassed now previousCapacity && !isFull previousCapacity && !isEmpty capacity then
        let zeroed := { previousCapacity with driveUpCapacity := 0, reservableCapacity := 0 }
        let st3 :=
          match previousDepartureKey (jsRouteSchedule st2 departureId arrivalId) departureTime with
          | some pk => setSchedEntryCapacity st2 departureId arrivalId pk (some zeroed)
          | none => st2
        .ok ⟨{ st3 with crossings := saveCapacityRow st3.crossings zeroed }, true⟩
      else
        .ok ⟨st2, false⟩

/-- One reading inside the `_.each` loops of `recordCapacity`: the
callback is async and its result is discarded, so a thrown TypeError
becomes an unhandled promise rejection and the loop continues with the
state untouched by that reading. -/
def recordCapacityOne (now : Int) (terminalID : Int) (departure : DepartingSpace)
    (spaceData : SpaceData) (st : CacheState) : CacheState :=
  match processSpaceData now terminalID departure spaceData st with
  | .ok r => r.state
  | .error _ => st

/-- luxon `minus({weeks: 1})` followed by `toSeconds`, in the
fixed-offset time model (no DST transition inside the window): exactly
seven days of seconds earlier. -/
def minusOneWeek (t : Int) : Int := t - 7 * 24 * 60 * 60

/-- The shadow-map read
`_.get(previousCapacityByTerminal, [departureId, mateId, previousDepartureTime])`. -/
def jsShadowGet (m : List ((Int × Int) × List (Int × Capacity)))
    (departureId mateId t : Int) : Option Capacity :=
  (jsLookupPair m departureId mateId).bind (fun inner => jsLookup inner t)

/-- The estimate chosen for one crossing in source `updateEstimates`:
the drive-up and reservable figures of the shadow capacity record one
week earlier on the same route, else null. -/
def estimateFor (st : CacheState) (departureId mateId time : Int) : Option Estimate :=
  match jsShadowGet st.previousCapacityByTerminal departureId mateId (minusOneWeek time) with
  | some previousCapacity =>
    some { driveUpCapacity := previousCapacity.driveUpCapacity
           reservableCapacity := previousCapacity.reservableCapacity }
  | none => none

/-- Source `updateEstimates`: walk every route of `scheduleByTerminal`
and every crossing of the route, and overwrite its `estimate`. -/
def updateEstimates (st : CacheState) : CacheState :=
  { st with scheduleByTerminal := st.scheduleByTerminal.map (fun route =>
      (route.1, route.2.map (fun q =>
        (q.1, { q.2 with estimate := estimateFor st route.1.1 route.1.2 q.2.time })))) }

/-- One pair of the terminals-and-mates feed. -/
structure MatePair where
  DepartingTerminalID : Int := 0
  ArrivingTerminalID : Int := 0
deriving DecidableEq, Repr

/-- Source `addMate` over the rebuilt-from-scratch mates index. -/
def addMate (m : List (Int × List Int)) (id mateId : Int) : List (Int × List Int) :=
  match jsLookup m id with
  | some mates => jsSetInt m id (mates ++ [mateId])
  | none => m ++ [(id, [mateId])]

/-- The mates rebuild at the top of source `updateSchedule`
(`matesByTerminalId = {}` then `addMate` per fetched pair). -/
def buildMates (mates : List MatePair) : List (Int × List Int) :=
  mates.foldl (fun m p => addMate m p.DepartingTerminalID p.ArrivingTerminalID) []

/-- One departure of the schedule-today feed. -/
structure DepartureData where
  DepartingTime : Int := 0
  VesselID : Int := 0
  LoadingRule : Int := 0
deriving DecidableEq, Repr

/-- The sailing-list build of one route inside source `updateSchedule`:
map over `scheduleData.Times`, fetching each vessel through `getVessel`
with the delay reset on the first occurrence of that vessel in the
route (tracked through `seenVessels`). -/
def buildRouteSchedule (now : Int) (vesselsById : List (Int × Vessel))
    (times : List DepartureData) : List SailingEntry :=
  (times.foldl (fun (acc : List SailingEntry × List Int) departure =>
      let time := departure.DepartingTime
      let isFirstOfVessel := !acc.2.contains departure.VesselID
      let vessel := getVesselValue vesselsById departure.VesselID isFirstOfVessel
      (acc.1 ++ [buildSailing now time departure.LoadingRule vessel],
       if isFirstOfVessel then acc.2 ++ [departure.VesselID] else acc.2)) ([], [])).1

/-- `_.keyBy(schedule, time)`: index the sailing list by the string
form of the departure time. -/
def keyByTime (schedule : List SailingEntry) : List (String × SailingEntry) :=
  schedule.foldl (fun m e => jsSetStr m (jsToKey e.time) e) []

/-- The shadow-map seeding of one route inside source `updateSchedule`:
when the route has no shadow entry yet, pull the persisted rows of the
week-earlier window spanned by the fresh schedule (the range query does
not filter by route) and index them by their own route and time.
Reading `.time` of `_.first`/`_.last` of an empty schedule throws. -/
def fillShadow (st : CacheState) (schedule : List SailingEntry) (terminalId mateId : Int) :
    Except String CacheState :=
  if (jsLookupPair st.previousCapacityByTerminal terminalId mateId).isSome then
    .ok st
  else
    match schedule.head?, schedule.getLast? with
    | some first, some last =>
      let startTime := minusOneWeek first.time
      let endTime := minusOneWeek last.time
      let rows := st.crossings.filter
        (fun c => startTime ≤ c.departureTime && c.departureTime ≤ endTime)
      let shadow := rows.foldl (fun m c =>
        let inner := (jsLookupPair m c.departureId c.arrivalId).getD []
        jsSetPair m (c.departureId, c.arrivalId) (jsSetInt inner c.departureTime c))
        st.previousCapacityByTerminal
      .ok { st with previousCapacityByTerminal := shadow }
    | _, _ => .error "TypeError: cannot read time of undefined"

/-- One (terminalId, mateId) iteration of the schedule loop in source
`updateSchedule`: build the sailing list, seed the shadow map if
needed, then `_.setWith` the keyed schedule into `scheduleByTerminal`. -/
def updateSchedulePair (now : Int) (schedToday : Int → Int → List DepartureData)
    (st : CacheState) (terminalId mateId : Int) : Except String CacheState := do
  let times := schedToday terminalId mateId
  let schedule := buildRouteSchedule now st.vesselsById times
  let st ← fillShadow st schedule terminalId mateId
  let keyed := jsSetPair st.scheduleByTerminal (terminalId, mateId) (keyByTime schedule)
  .ok { st with scheduleByTerminal := keyed }

/-- Source `backfillCrossings`: attach every persisted row newer than
yesterday to its crossing; a row with no matching crossing makes the
`crossing.capacity = capacity` assignment throw. -/
def backfillCrossings (now : Int) (st : CacheState) : Except String CacheState :=
  let yesterday := now - 24 * 60 * 60
  let rows := st.crossings.filter (fun c => yesterday < c.departureTime)
  rows.foldlM (fun s row =>
    match jsGetEntry s row.departureId row.arrivalId (jsToKey row.departureTime) with
    | none => .error "TypeError: cannot set property capacity of undefined"
    | some _ => .ok (setSchedEntryCapacity s row.departureId row.arrivalId
        (jsToKey row.departureTime) (some row))) st

/-- Source `updateSchedule`.  The fetched flush date and the feed
contents are parameters (the gateway is an external collaborator).
When the flush date equals the recorded one the whole update is skipped
before any feed fetch; the boolean reports whether the feeds were
fetched. -/
def updateSchedule (cacheFlushDate : Int) (mates : List MatePair)
    (schedToday : Int → Int → List DepartureData) (now : Int) (st : CacheState) :
    Except String (CacheState × Bool) :=
  if st.cacheFlushDates.schedule = some cacheFlushDate then
    .ok (st, false)
  else do
    let st1 := { st with cacheFlushDates := { st.cacheFlushDates with schedule := some cacheFlushDate } }
    let st2 := { st1 with matesByTerminalId := buildMates mates }
    let st3 ← st2.matesByTerminalId.foldlM (fun s pair =>
      pair.2.foldlM (fun s2 mateId => updateSchedulePair now schedToday s2 pair.1 mateId) s) st2
    let st4 ← backfillCrossings now st3
    .ok (st4, true)

/-- One record of the vessel-verbose feed.  The source reads the
lowercase `vessel.status` field. -/
structure VesselVerbose where
  VesselID : Int := 0
  VesselAbbrev : String := ""
  VesselName : String := ""
  Beam : String := ""
  ClassID : Int := 0
  CarDeckRestroom : Bool := false
  Elevator : Bool := false
  MainCabinGalley : Bool := false
  MainCabinRestroom : Bool := false
  PublicWifi : Bool := false
  Horsepower : Int := 0
  status : Option Int := none
  ADAInfo : String := ""
  ADAAccessible : Bool := false
  Length : String := ""
  TallDeckClearance : Int := 0
  MaxPassengerCount : Int := 0
  SpeedInKnots : Int := 0
  TallDeckSpace : Int := 0
  RegDeckSpace : Int := 0
  Tonnage : Int := 0
  YearBuilt : Int := 0
  YearRebuilt : Option Int := none
deriving DecidableEq, Repr

/-- The static-field merge of one vessel in source `updateVessels`
(the data object handed to `assignVessel`). -/
def applyVesselVerbose (vessel : VesselVerbose) (prev : Vessel) : Vessel :=
  { prev with
    abbreviation := vessel.VesselAbbrev
    beam := vessel.Beam
    classId := vessel.ClassID
    hasCarDeckRestroom := vessel.CarDeckRestroom
    hasElevator := vessel.Elevator
    hasGalley := vessel.MainCabinGalley
    hasRestroom := vessel.CarDeckRestroom || vessel.MainCabinRestroom
    hasWiFi := vessel.PublicWifi
    horsepower := vessel.Horsepower
    id := vessel.VesselID
    inMaintenance := vessel.status == some 2
    inService := vessel.status == some 1
    info := { ada := some vessel.ADAInfo, crossing := none }
    isAdaAccessible := vessel.ADAAccessible
    length := vessel.Length
    maxClearance := vessel.TallDeckClearance
    name := vessel.VesselName
    passengerCapacity := vessel.MaxPassengerCount
    speed := vessel.SpeedInKnots
    tallVehicleCapacity := vessel.TallDeckSpace
    vehicleCapacity := vessel.RegDeckSpace + vessel.TallDeckSpace
    weight := vessel.Tonnage
    yearBuilt := vessel.YearBuilt
    yearRebuilt := vessel.YearRebuilt }

/-- Source `assignVessel`: safely initialize then `_.assign`. -/
def assignVesselState (m : List (Int × Vessel)) (id : Int) (f : Vessel → Vessel) :
    List (Int × Vessel) :=
  jsSetInt m id (f ((jsLookup m id).getD {}))

/-- Source `updateVessels` with the fetched flush date and feed as
parameters; skipped wholesale when the flush date is unchanged. -/
def updateVessels (cacheFlushDate : Int) (vessels : List VesselVerbose) (st : CacheState) :
    CacheState × Bool :=
  if st.cacheFlushDates.vessels = some cacheFlushDate then
    (st, false)
  else
    let st1 := { st with cacheFlushDates := { st.cacheFlushDates with vessels := some cacheFlushDate } }
    (vessels.foldl (fun s vessel =>
      { s with vesselsById := (assignVesselState s.vesselsById vessel.VesselID
          (applyVesselVerbose vessel)) }) st1,
     true)

structure BulletinData where
  BulletinTitle : String := ""
  BulletinText : String := ""
  BulletinLastUpdated : Int := 0
deriving DecidableEq, Repr

structure WaitTimeData where
  RouteName : String := ""
  WaitTimeNotes : String := ""
  WaitTimeLastUpdated : Int := 0
deriving DecidableEq, Repr

/-- One record of the terminal-verbose feed. -/
structure TerminalVerbose where
  TerminalID : Int := 0
  TerminalAbbrev : String := ""
  TerminalName : String := ""
  Bulletins : List BulletinData := []
  Elevator : Bool := false
  OverheadPassengerLoading : Bool := false
  Restroom : Bool := false
  WaitingRoom : Bool := false
  FoodService : Bool := false
  AdaInfo : String := ""
  AirportInfo : String := ""
  AirportShuttleInfo : String := ""
  BikeInfo : String := ""
  ConstructionInfo : String := ""
  FoodServiceInfo : String := ""
  LostAndFoundInfo : String := ""
  MotorcycleInfo : String := ""
  ParkingInfo : String := ""
  ParkingShuttleInfo : String := ""
  SecurityInfo : String := ""
  TrainInfo : String := ""
  TruckInfo : String := ""
  MapLink : Option String := none
  Latitude : Int := 0
  Longitude : Int := 0
  AddressLineOne : String := ""
  AddressLineTwo : String := ""
  City : String := ""
  State : String := ""
  ZipCode : String := ""
  WaitTimes : List WaitTimeData := []
deriving DecidableEq, Repr

/-- The fixed `TERMINAL_DATA_OVERRIDES` table: manual map links deep-merged
on top of the fetched data for five terminal ids. -/
def terminalDataOverrideLink (id : Int) : Option String :=
  if id = 5 then
    some "https://www.google.com/maps/place/Clinton+Ferry+Terminal/@47.9750653,-122.3514909,18.57z/data=!4m8!1m2!2m1!1sclinton+ferry!3m4!1s0x0:0xfc1a9b74eba33fab!8m2!3d47.9751021!4d-122.350086"
  else if id = 13 then
    some "https://www.google.com/maps/place/Lopez+Ferry+Landing/@48.5706056,-122.9007289,14z/data=!4m8!1m2!2m1!1slopez+island+ferry+terminal!3m4!1s0x548581184141c77d:0xb95765067fe72167!8m2!3d48.5706056!4d-122.8834068"
  else if id = 15 then
    some "https://www.google.com/maps/place/Orcas+Island+Ferry+Terminal/@48.597361,-122.9458067,17z/data=!3m1!4b1!4m5!3m4!1s0x548587ff7781be87:0xb6eeeac287820785!8m2!3d48.597361!4d-122.9436127"
  else if id = 17 then
    some "https://www.google.com/maps/place/Port+Townsend+Terminal/@48.1121633,-122.7627137,17z/data=!3m1!4b1!4m5!3m4!1s0x548fedcf67a53163:0xd61a6301e962de31!8m2!3d48.1121633!4d-122.7605197"
  else if id = 18 then
    some "https://www.google.com/maps/place/https://www.google.com/maps/place/Shaw+Island+Terminal/@48.584393,-122.9321401,17z/data=!3m1!4b1!4m5!3m4!1s0x548587290b11c709:0xb4bf5a7be8d73b0d!8m2!3d48.584393!4d-122.9299461linton+Ferry+Terminal/@47.9750653,-122.3514909,18.57z/data=!4m8!1m2!2m1!1sclinton+ferry!3m4!1s0x0:0xfc1a9b74eba33fab!8m2!3d47.9751021!4d-122.350086"
  else none

/-- Source `assignTerminal`: safely initialize, `_.assign` the data,
then `_.merge` the override table entry (which only carries
`location.link`). -/
def assignTerminalState (m : List (Int × Terminal)) (id : Int) (f : Terminal → Terminal) :
    List (Int × Terminal) :=
  let next := f ((jsLookup m id).getD {})
  let next :=
    match terminalDataOverrideLink id with
    | some link =>
      { next with base := { next.base with location :=
        { next.base.location with link := some link } } }
    | none => next
  jsSetInt m id next

/-- The verbose-field merge of one terminal in source `updateTerminals`
(the data object handed to `assignTerminal`; `getCameras` is a
collaborator outside the given sources and enters as a parameter). -/
def applyTerminalVerbose (cameras : Int → List Int) (terminal : TerminalVerbose)
    (prev : Terminal) : Terminal :=
  { prev with base := { prev.base with
      abbreviation := terminal.TerminalAbbrev
      bulletins := terminal.Bulletins.map (fun bulletin =>
        { title := bulletin.BulletinTitle
          description := bulletin.BulletinText
          date := bulletin.BulletinLastUpdated })
      cameras := cameras terminal.TerminalID
      hasElevator := terminal.Elevator
      hasOverheadLoading := terminal.OverheadPassengerLoading
      hasRestroom := terminal.Restroom
      hasWaitingRoom := terminal.WaitingRoom
      hasFood := terminal.FoodService
      id := terminal.TerminalID
      info :=
        { ada := terminal.AdaInfo
          airport := terminal.AirportInfo ++ terminal.AirportShuttleInfo
          bicycle := terminal.BikeInfo
          construction := terminal.ConstructionInfo
          food := terminal.FoodServiceInfo
          lost := terminal.LostAndFoundInfo
          motorcycle := terminal.MotorcycleInfo
          parking := terminal.ParkingInfo ++ terminal.ParkingShuttleInfo
          security := terminal.SecurityInfo
          train := terminal.TrainInfo
          truck := terminal.TruckInfo }
      location :=
        { link := terminal.MapLink
          latitude := terminal.Latitude
          longitude := terminal.Longitude
          address :=
            { line1 := terminal.AddressLineOne
              line2 := terminal.AddressLineTwo
              city := terminal.City
              state := terminal.State
              zip := terminal.ZipCode } }
      name := terminal.TerminalName
      waitTimes := terminal.WaitTimes.map (fun waitTime =>
        { title := waitTime.RouteName
          description := waitTime.WaitTimeNotes
          time := waitTime.WaitTimeLastUpdated }) } }

/-- Source `updateTerminals` with the fetched flush date, feed, camera
list and per-pair route descriptors as parameters; skipped wholesale
when the flush date is unchanged.  The second phase attaches to each
terminal its mates: a deep copy of the mate terminal without `mates`,
plus the fetched route. -/
def updateTerminals (cacheFlushDate : Int) (terminals : List TerminalVerbose)
    (cameras : Int → List Int) (routeInfo : Int → Int → Route) (st : CacheState) :
    CacheState × Bool :=
  if st.cacheFlushDates.terminals = some cacheFlushDate then
    (st, false)
  else
    let st1 := { st with cacheFlushDates := { st.cacheFlushDates with terminals := some cacheFlushDate } }
    let st2 := terminals.foldl (fun s terminal =>
      { s with terminalsById := (assignTerminalState s.terminalsById terminal.TerminalID
          (applyTerminalVerbose cameras terminal)) }) st1
    let tm := st2.matesByTerminalId.foldl (fun tm pair =>
      let matesWithRoute := pair.2.map (fun mateId =>
        { base := ((jsLookup tm mateId).getD {}).base
          route := routeInfo pair.1 mateId })
      assignTerminalState tm pair.1 (fun prev => { prev with mates := matesWithRoute }))
      st2.terminalsById
    ({ st2 with terminalsById := tm }, true)

/-- The key that `updateCache` assigns its in-flight promise to:
`updateProgress.vessels = updateVessels()`. -/
def updateProgressVesselsKey : String := "vessels"

/-- The property that source `getVessels` and `getVessel` await:
`await updateProgress.vesels` - a misspelling, so the accessor awaits
an undefined property. -/
def getVesselsAwaitKey : String := "vesels"

/-- The property that source `getSchedule` and `getMates` await. -/
def getScheduleAwaitKey : String := "schedule"

/-- The property that source `getTerminals` and `getTerminal` await. -/
def getTerminalsAwaitKey : String := "terminals"

/-- A minimal world for the single-flight contract of the vessels
family: the live map, the map the in-flight refresh will install, and
the set of `updateProgress` keys currently holding a pending promise. -/
structure RefreshWorld where
  vesselsById : List (Int × Vessel) := []
  refreshedVesselsById : List (Int × Vessel) := []
  inflight : List String := []
deriving DecidableEq, Repr

/-- Awaiting `updateProgress[key]` and then reading the vessels map: a
key holding the pending promise resumes the reader after the refresh
has installed the new map; awaiting a missing property (undefined)
resumes immediately, observing the pre-refresh map. -/
def awaitProgressThenRead (w : RefreshWorld) (key : String) : List (Int × Vessel) :=
  if w.inflight.contains key then w.refreshedVesselsById else w.vesselsById

/-- Source `getVessels` issued while a vessels refresh is in flight:
it awaits the misspelled `updateProgress.vesels` property. -/
def getVesselsDuring (w : RefreshWorld) : List (Int × Vessel) :=
  awaitProgressThenRead w getVesselsAwaitKey

/-- Whether `departureTime` is the earliest key of the route schedule
(its string key is present and lexicographically least, which for the
ten-digit epoch keys coincides with numerically least). -/
def isEarliestDeparture (schedule : List (String × SailingEntry)) (departureTime : Int) : Prop :=
  jsToKey departureTime ∈ schedule.map (·.1) ∧
  ∀ k ∈ schedule.map (·.1), jsStrLe (jsToKey departureTime) k = true

instance (schedule : List (String × SailingEntry)) (departureTime : Int) :
    Decidable (isEarliestDeparture schedule departureTime) := by
  unfold isEarliestDeparture
  infer_instance

/-! Concrete sample data used by the closed theorems below. -/

/-- The capacity attached to the earlier sailing of the C1 scenario:
five of ten spaces taken, so neither full nor empty. -/
def capacityP : Capacity :=
  { arrivalId := 2, departureId := 1, departureTime := 1000,
    driveUpCapacity := 3, reservableCapacity := 2, totalCapacity := 10 }

def entryP : SailingEntry := { time := 1000, capacity := some capacityP }

def entryC : SailingEntry := { time := 2000 }

/-- Route (1, 2) with sailings at 1000 and 2000; the earlier one
carries `capacityP`, the later one has no capacity yet. -/
def stC1 : CacheState :=
  { scheduleByTerminal := [((1, 2), [(jsToKey 1000, entryP), (jsToKey 2000, entryC)])] }

def sdC1 : SpaceData :=
  { TerminalID := 2, DriveUpSpaceCount := 4, DisplayDriveUpSpace := true,
    ReservableSpaceCount := 0, MaxSpaceCount := 10 }

def depC1 : DepartingSpace :=
  { VesselID := 9, Departure := 2000, SpaceForArrivalTerminals := [sdC1] }

/-- The capacity model that `processSpaceData` builds from `sdC1`. -/
def capC1 : Capacity :=
  { arrivalId := 2, departureId := 1, departureTime := 2000,
    driveUpCapacity := 4, hasDriveUp := true, reservableCapacity := 0, totalCapacity := 10 }

/-- The state after processing the C1 reading: the reading is attached
and persisted, and nothing else changes. -/
def stC1after : CacheState :=
  { scheduleByTerminal :=
      [((1, 2), [(jsToKey 1000, entryP), (jsToKey 2000, { entryC with capacity := some capC1 })])],
    crossings := [capC1] }

def pollDock : VesselLocation := { VesselID := 1, AtDock := true }

def vesselAfterFirstDockPoll : Vessel := recordTimingStep 100 {} pollDock

def vesselAfterSecondDockPoll : Vessel := recordTimingStep 200 vesselAfterFirstDockPoll pollDock

def st0 : CacheState :=
  { cacheFlushDates := { schedule := some 11, vessels := some 22, terminals := some 33 } }

def capShadow : Capacity :=
  { arrivalId := 8, departureId := 7, departureTime := 95200,
    driveUpCapacity := 6, reservableCapacity := 1, totalCapacity := 10 }

/-- A state with one crossing at 700000 on route (7, 8) and a shadow
record exactly one week earlier. -/
def stC4 : CacheState :=
  { scheduleByTerminal := [((7, 8), [(jsToKey 700000, { time := 700000 })])],
    previousCapacityByTerminal := [((7, 8), [(95200, capShadow)])] }

def entryC4after : SailingEntry :=
  { time := 700000, estimate := some { driveUpCapacity := 6, reservableCapacity := 1 } }

def capFull : Capacity := { totalCapacity := 5 }

def sdC7 : SpaceData := { TerminalID := 3, DriveUpSpaceCount := 5, MaxSpaceCount := 10 }

def depC7 : DepartingSpace := { VesselID := 4, Departure := 5000, SpaceForArrivalTerminals := [sdC7] }

def stC7 : CacheState := {}

def vesselC8 : Vessel := { id := 1, departureDelta := some 120 }

def stC8 : CacheState := { vesselsById := [(1, vesselC8)] }

def vesselOld : Vessel := { id := 1, speed := 5 }

def vesselNew : Vessel := { id := 1, speed := 9 }

/-- A vessels refresh is in flight: `updateProgress.vessels` holds the
pending promise that will install `refreshedVesselsById`. -/
def worldC9 : RefreshWorld :=
  { vesselsById := [(1, vesselOld)], refreshedVesselsById := [(1, vesselNew)],
    inflight := [updateProgressVesselsKey] }

def sdC10 : SpaceData := { TerminalID := 2, DriveUpSpaceCount := 1, MaxSpaceCount := 10 }

def depC10 : DepartingSpace := { VesselID := 9, Departure := 1000, SpaceForArrivalTerminals := [sdC10] }

/-! Helper lemmas shared by several developments. -/

theorem sameValueZero_str_num (s : String) (t : Int) :
    sameValueZero (JsPrim.str s) (JsPrim.num t) = false := rfl

theorem jsIndexOfAux_str_num (t : Int) (xs : List String) (i : Int) :
    jsIndexOfAux (JsPrim.num t) (xs.map JsPrim.str) i = -1 := by
  induction xs generalizing i with
  | nil => rfl
  | cons a as ih =>
    simp only [List.map_cons, jsIndexOfAux, sameValueZero_str_num, Bool.false_eq_true,
      if_false]
    exact ih (i + 1)

/-- The string keys produced by `_.keys` never SameValueZero-match the
numeric probe, so the previous-key computation always falls through to
an undefined array read. -/
theorem previousDepartureKey_eq_none (schedule : List (String × SailingEntry))
    (departureTime : Int) :
    previousDepartureKey schedule departureTime = none := by
  simp only [previousDepartureKey, jsIndexOf, jsIndexOfAux_str_num]
  norm_num [jsArrayGet]

/-- `getPreviousCapacity` returns null on every input. -/
theorem getPreviousCapacity_eq_none (st : CacheState)
    (departureId arrivalId departureTime : Int) :
    getPreviousCapacity st departureId arrivalId departureTime = none := by
  simp [getPreviousCapacity, previousDepartureKey_eq_none]

/-- A successful `processSpaceData` never runs the supersession
branch. -/
theorem processSpaceData_not_superseded (now terminalID : Int) (departure : DepartingSpace)
    (spaceData : SpaceData) (st : CacheState) (res : CapacityStepResult)
    (h : processSpaceData now terminalID departure spaceData st = .ok res) :
    res.superseded = false := by
  simp only [processSpaceData, getPreviousCapacity_eq_none] at h
  split at h
  · exact Except.noConfusion h
  · injection h with h2
    subst h2
    rfl

/-! The claims. -/

/-- C1: the claimed supersession correction - a non-empty reading for a
crossing whose predecessor has not passed and is not full must zero the
predecessor in memory and in the store - does not happen.  In the C1
scenario every hypothesis of the claim holds (the predecessor at 1000
carries five of ten spaces and has not passed; the reading at 2000 is
not empty), yet processing leaves the predecessor capacity at
driveUpCapacity 3 / reservableCapacity 2 and persists only the reading
itself: `getPreviousCapacity` compares the string schedule keys against
the numeric departure time with SameValueZero, always finds index -1,
and returns null, so the correction branch is dead code. -/
theorem supersession_correction_code_bug :
    hasPassed 500 capacityP = false ∧
    isFull capacityP = false ∧
    isEmpty capC1 = false ∧
    processSpaceData 500 1 depC1 sdC1 stC1 = .ok { state := stC1after, superseded := false } ∧
    jsGetEntry stC1after 1 2 (jsToKey 1000) = some entryP ∧
    entryP.capacity = some capacityP ∧
    capacityP.driveUpCapacity = 3 ∧
    stC1after.crossings = [capC1] ∧
    getPreviousCapacity stC1 1 2 2000 = none := by decide

/-- C2: the docked-time stamp is edge-triggered as claimed on the
false-to-true poll, but on the following poll (still at dock) the
source assigns the local `dockedTime` - which is null off the
transition - over the stored value, so the stamp is erased rather than
left unchanged. -/
theorem dockedTime_edge_trigger_code_bug :
    vesselAfterFirstDockPoll.dockedTime = some 100 ∧
    vesselAfterFirstDockPoll.isAtDock = true ∧
    vesselAfterSecondDockPoll.isAtDock = true ∧
    vesselAfterSecondDockPoll.dockedTime = none ∧
    vesselAfterSecondDockPoll.dockedTime ≠ vesselAfterFirstDockPoll.dockedTime := by decide

/-- C3: when the fetched cache-flush date equals the recorded one, each
of the three long-cycle refreshes returns before fetching any feed and
leaves the whole cache state - in particular `scheduleByTerminal`,
`vesselsById`, `terminalsById` and `matesByTerminalId` - unchanged; the
boolean reports that the feeds were not fetched. -/
theorem flush_token_idempotent (st : CacheState) (dS dV dT now : Int)
    (mates : List MatePair) (schedToday : Int → Int → List DepartureData)
    (vessels : List VesselVerbose) (terminals : List TerminalVerbose)
    (cameras : Int → List Int) (routeInfo : Int → Int → Route) :
    (st.cacheFlushDates.schedule = some dS →
      updateSchedule dS mates schedToday now st = .ok (st, false)) ∧
    (st.cacheFlushDates.vessels = some dV →
      updateVessels dV vessels st = (st, false)) ∧
    (st.cacheFlushDates.terminals = some dT →
      updateTerminals dT terminals cameras routeInfo st = (st, false)) := by
  refine ⟨fun h => ?_, fun h => ?_, fun h => ?_⟩
  · simp [updateSchedule, h]
  · simp [updateVessels, h]
  · simp [updateTerminals, h]

theorem flush_token_idempotent_witness :
    updateSchedule 11 [] (fun _ _ => []) 0 st0 = .ok (st0, false) ∧
    updateVessels 22 [] st0 = (st0, false) ∧
    updateTerminals 33 [] (fun _ => []) (fun _ _ => {}) st0 = (st0, false) := by
  have T := flush_token_idempotent st0 11 22 33 0 [] (fun _ _ => []) [] []
    (fun _ => []) (fun _ _ => {})
  exact ⟨T.1 rfl, T.2.1 rfl, T.2.2 rfl⟩

/-- C4: after `updateEstimates`, a crossing at time T on a route whose
shadow map holds a capacity record at exactly T minus seven days
carries that record's drive-up and reservable figures as its estimate,
and a crossing with no such record carries a null estimate. -/
theorem updateEstimates_correct (st : CacheState) (d a : Int)
    (sched : List (String × SailingEntry)) (k : String) (e : SailingEntry)
    (hroute : ((d, a), sched) ∈ (updateEstimates st).scheduleByTerminal)
    (hentry : (k, e) ∈ sched) :
    (∀ r, jsShadowGet st.previousCapacityByTerminal d a (minusOneWeek e.time) = some r →
      e.estimate = some { driveUpCapacity := r.driveUpCapacity,
                          reservableCapacity := r.reservableCapacity }) ∧
    (jsShadowGet st.previousCapacityByTerminal d a (minusOneWeek e.time) = none →
      e.estimate = none) := by
  simp only [updateEstimates] at hroute
  obtain ⟨⟨⟨d0, a0⟩, sched0⟩, hmem0, heq0⟩ := List.mem_map.mp hroute
  simp only [Prod.mk.injEq] at heq0
  obtain ⟨⟨hd, ha⟩, hsched⟩ := heq0
  subst hd
  subst ha
  subst hsched
  obtain ⟨⟨k0, e0⟩, hmem1, heq1⟩ := List.mem_map.mp hentry
  simp only [Prod.mk.injEq] at heq1
  obtain ⟨hk, he⟩ := heq1
  subst hk
  subst he
  constructor
  · intro r hr
    simp only [estimateFor]
    simp only at hr
    rw [hr]
  · intro hn
    simp only [estimateFor]
    simp only at hn
    rw [hn]

theorem updateEstimates_correct_witness :
    entryC4after.estimate = some { driveUpCapacity := 6, reservableCapacity := 1 } :=
  (updateEstimates_correct stC4 7 8 [(jsToKey 700000, entryC4after)] (jsToKey 700000)
    entryC4after (by decide) (by decide)).1 capShadow (by decide)

/-- C5: for loading rules 1, 2 and 3, a sailing built by the schedule
refresh allows passengers exactly for rules 1 and 3 and allows vehicles
exactly for rules 2 and 3. -/
theorem loadingRule_eligibility (now time loadingRule : Int) (vessel : Option Vessel)
    (h : loadingRule = 1 ∨ loadingRule = 2 ∨ loadingRule = 3) :
    ((buildSailing now time loadingRule vessel).allowsPassengers = true ↔
      (loadingRule = 1 ∨ loadingRule = 3)) ∧
    ((buildSailing now time loadingRule vessel).allowsVehicles = true ↔
      (loadingRule = 2 ∨ loadingRule = 3)) := by
  rcases h with rfl | rfl | rfl <;> dsimp only [buildSailing] <;> decide

theorem loadingRule_eligibility_witness :
    ((buildSailing 0 1000 3 none).allowsPassengers = true ↔
      ((3 : Int) = 1 ∨ (3 : Int) = 3)) ∧
    ((buildSailing 0 1000 3 none).allowsVehicles = true ↔
      ((3 : Int) = 2 ∨ (3 : Int) = 3)) :=
  loadingRule_eligibility 0 1000 3 none (Or.inr (Or.inr rfl))

/-- C6: `isEmpty` holds exactly when the drive-up and reservable counts
sum to the total, `isFull` holds exactly when both counts are zero, and
with a positive total (and non-negative counts) the two cannot hold
together. -/
theorem isEmpty_isFull_spec (c : Capacity) :
    (isEmpty c = true ↔ c.driveUpCapacity + c.reservableCapacity = c.totalCapacity) ∧
    (isFull c = true ↔ c.driveUpCapacity = 0 ∧ c.reservableCapacity = 0) ∧
    (0 < c.totalCapacity → 0 ≤ c.driveUpCapacity → 0 ≤ c.reservableCapacity →
      ¬(isEmpty c = true ∧ isFull c = true)) := by
  refine ⟨?_, ?_, ?_⟩
  · simp [isEmpty]
  · simp [isFull]
  · intro htot _ _ hboth
    obtain ⟨he, hf⟩ := hboth
    simp [isEmpty] at he
    simp [isFull] at hf
    omega

theorem isEmpty_isFull_spec_witness :
    ¬(isEmpty capFull = true ∧ isFull capFull = true) :=
  (isEmpty_isFull_spec capFull).2.2 (by decide) (by decide) (by decide)

/-- C7: a live reading with no matching in-memory crossing is not
silently dropped: the `crossing.capacity = capacity` assignment throws
a TypeError (swallowed by the surrounding loop as an unhandled promise
rejection, so nothing is attached or persisted and the state is left
unchanged, but the processing of the reading does not complete without
error as claimed). -/
theorem unmatched_reading_code_bug :
    processSpaceData 0 6 depC7 sdC7 stC7 =
      .error "TypeError: cannot set property capacity of undefined" ∧
    recordCapacityOne 0 6 depC7 sdC7 stC7 = stC7 := by decide

/-- C8: for a vessel present in the cache, `getVessel` with
`resetDelay` returns a deep copy whose `departureDelta` is cleared, and
the cached entry itself - including its delta - is untouched. -/
theorem getVessel_resetDelay_pure (st : CacheState) (id : Int) (v : Vessel)
    (h : jsLookup st.vesselsById id = some v) :
    getVessel st id true = (some { v with departureDelta := none }, st) ∧
    jsLookup (getVessel st id true).2.vesselsById id = some v := by
  constructor
  · simp [getVessel, getVesselValue, h]
  · simpa [getVessel] using h

theorem getVessel_resetDelay_pure_witness :
    getVessel stC8 1 true = (some { vesselC8 with departureDelta := none }, stC8) ∧
    jsLookup (getVessel stC8 1 true).2.vesselsById 1 = some vesselC8 :=
  getVessel_resetDelay_pure stC8 1 vesselC8 (by decide)

/-- C9: the vessel accessors await the misspelled property
`updateProgress.vesels`, which is undefined, so a read issued while the
vessels refresh is in flight (registered under the key "vessels")
resumes immediately and observes the pre-refresh map instead of the
refresh result; awaiting the key the refresh actually registered would
observe the new map. -/
theorem accessor_await_code_bug :
    getVesselsDuring worldC9 = worldC9.vesselsById ∧
    getVesselsDuring worldC9 ≠ worldC9.refreshedVesselsById ∧
    awaitProgressThenRead worldC9 updateProgressVesselsKey = worldC9.refreshedVesselsById ∧
    getVesselsAwaitKey ≠ updateProgressVesselsKey := by decide

/-- C10: a reading whose departure time is the earliest key of its
route schedule gets a null `getPreviousCapacity`, and processing it
never runs the supersession branch: nothing besides the reading itself
is zeroed or re-persisted. -/
theorem first_sailing_no_supersession (now terminalID : Int) (departure : DepartingSpace)
    (spaceData : SpaceData) (st : CacheState)
    (_h : isEarliestDeparture (jsRouteSchedule st terminalID spaceData.TerminalID)
      departure.Departure) :
    getPreviousCapacity st terminalID spaceData.TerminalID departure.Departure = none ∧
    ∀ res, processSpaceData now terminalID departure spaceData st = .ok res →
      res.superseded = false :=
  ⟨getPreviousCapacity_eq_none st terminalID spaceData.TerminalID departure.Departure,
   fun res hres => processSpaceData_not_superseded now terminalID departure spaceData st res hres⟩

theorem first_sailing_no_supersession_witness :
    getPreviousCapacity stC1 1 sdC10.TerminalID depC10.Departure = none ∧
    ∀ res, processSpaceData 500 1 depC10 sdC10 stC1 = .ok res → res.superseded = false :=
  first_sailing_no_supersession 500 1 depC10 sdC10 stC1 (by decide)

end FerryFyi
